import Mathlib

/-!
Verification of the extensibility-kernel and build-pipeline core of the
eshop-template repository, together with a few leaf utilities
(translation loading, the product-image GraphQL resolver, the front-store
cart reducer).

The JavaScript sources are shallowly embedded: pure functions become Lean
functions, the stateful registry/hook table becomes explicit state
passing, the build driver becomes a trace of events, and fallible steps
return `Except`.
-/

namespace EShop

/-! ## Registry (hook/processor registry)

Modelled from the spec: the implementation file
`src/lib/util/registry.js` is not part of the provided sources (only its
callers, e.g. `modules/checkout/bootstrap.js`, are).  The model follows
§4.1/§4.5 of the design: an extension point owns an ordered sequence of
`(processor, priority)` pairs plus at most one final processor;
`runProcessors` folds the processors in ascending priority order (ties
broken by registration order — a stable sort) and then applies the final
processor exactly once; every mutator fails with `LockedRegistryError`
once the registry is locked, leaving the state unchanged; a repeated
`addFinalProcessor` silently overwrites (the documented source
behaviour). -/

inductive RegistryError where
  | lockedRegistry
deriving DecidableEq, Repr

/-- Registry state for one value type `α`: a flat registration log
`(pointName, fn, priority)` in registration order, a log of final
processors (last registration wins), and the lock flag. -/
structure Registry (α : Type) where
  processors : List (String × (α → α) × Nat)
  finalProcessors : List (String × (α → α))
  locked : Bool

def emptyRegistry (α : Type) : Registry α :=
  { processors := [], finalProcessors := [], locked := false }

/-- Modelled from the spec: `addProcessor(pointName, fn, priority)`
appends the registration; fails with `LockedRegistryError` after lock,
leaving the registry unchanged. -/
def addProcessor (name : String) (fn : α → α) (priority : Nat)
    (r : Registry α) : Except RegistryError Unit × Registry α :=
  if r.locked then (.error .lockedRegistry, r)
  else (.ok (), { r with processors := r.processors ++ [(name, fn, priority)] })

/-- Modelled from the spec: `addFinalProcessor(pointName, fn)` registers
the single final-reduction function (silently overwriting — the log keeps
every registration and lookups take the last one); fails with
`LockedRegistryError` after lock. -/
def addFinalProcessor (name : String) (fn : α → α)
    (r : Registry α) : Except RegistryError Unit × Registry α :=
  if r.locked then (.error .lockedRegistry, r)
  else (.ok (), { r with finalProcessors := r.finalProcessors ++ [(name, fn)] })

/-- Modelled from the spec: the Lock Controller's registry half — sets
the lock flag; re-locking is a no-op. -/
def lockRegistry (r : Registry α) : Registry α :=
  { r with locked := true }

/-- The processors registered at `name`, in registration order. -/
def registeredProcessors (r : Registry α) (name : String) :
    List ((α → α) × Nat) :=
  (r.processors.filter (fun e => e.1 == name)).map (fun e => e.2)

/-- The final processor registered at `name`, if any (last registration
wins). -/
def finalProcessorFor (r : Registry α) (name : String) : Option (α → α) :=
  ((r.finalProcessors.filter (fun e => e.1 == name)).map (fun e => e.2)).getLast?

/-- Stable insertion: the new element goes after every element of equal
or smaller priority, preserving registration order among equal
priorities. -/
def insertByPriority (x : (α → α) × Nat) :
    List ((α → α) × Nat) → List ((α → α) × Nat)
  | [] => [x]
  | y :: ys => if y.2 ≤ x.2 then y :: insertByPriority x ys else x :: y :: ys

/-- Stable sort of the registration list by ascending priority. -/
def sortByPriority (l : List ((α → α) × Nat)) : List ((α → α) × Nat) :=
  l.foldl (fun acc x => insertByPriority x acc) []

/-- Modelled from the spec: `runProcessors(pointName, initialValue)`
folds the priority-ordered processor list over the initial value,
strictly sequentially, then applies the final processor if present. -/
def runProcessors (r : Registry α) (name : String) (v0 : α) : α :=
  let folded :=
    (sortByPriority (registeredProcessors r name)).foldl
      (fun acc p => p.1 acc) v0
  match finalProcessorFor r name with
  | some fin => fin folded
  | none => folded

/-! ## Hook table

Modelled from the spec: `src/lib/util/hookable.js` is likewise absent
from the provided sources.  Only the mutation/lock behaviour (§4.2) is
needed here: `addHook(functionName, kind, fn, priority)` appends a tagged
contribution and fails with `LockedHooksError` after lock, leaving the
table unchanged. -/

inductive HookKind where
  | before
  | after
  | replace
deriving DecidableEq, Repr

inductive HooksError where
  | lockedHooks
deriving DecidableEq, Repr

structure Hookable (F : Type) where
  hooks : List (String × HookKind × F × Nat)
  locked : Bool

def emptyHookable (F : Type) : Hookable F :=
  { hooks := [], locked := false }

/-- Modelled from the spec: `addHook` appends the contribution; fails
with `LockedHooksError` after lock, leaving the table unchanged. -/
def addHook (name : String) (kind : HookKind) (fn : F) (priority : Nat)
    (h : Hookable F) : Except HooksError Unit × Hookable F :=
  if h.locked then (.error .lockedHooks, h)
  else (.ok (), { h with hooks := h.hooks ++ [(name, kind, fn, priority)] })

/-- Modelled from the spec: the Lock Controller's hook-table half. -/
def lockHookable (h : Hookable F) : Hookable F :=
  { h with locked := true }

/-! ## Build driver (`src/unnamed/part_000`)

The driver is embedded as a trace of observable events.  Collaborator
functions imported by the driver (`loadModuleRoutes`,
`loadBootstrapScript`, `validateConfiguration`, `getRoutes`,
`isBuildRequired`, `buildEntry`, `compile`, module discovery) are opaque
to the driver and become parameters; fallible ones return `Except`.
`process.exit(code)` terminates the process, so nothing follows an
`exit` event in a trace. -/

inductive Event (Module Route : Type) where
  | loadRoute (m : Module)
  | logError
  | exit (code : Nat)
  | cleanBuildDir
  | bootstrap (m : Module)
  | lockHooks
  | lockRegistry
  | validateConfig
  | buildEntry (rs : List Route)
  | compile (rs : List Route)
deriving DecidableEq, Repr

/-- The driver's collaborators, as imported at the top of the file. -/
structure Collaborators (Module Route E Config : Type) where
  getCoreModules : List Module
  getEnabledExtensions : List Module
  loadModuleRoutes : Module → Except E Unit
  loadBootstrapScript : Module → Except E Unit
  validateConfiguration : Config → Except E Unit
  config : Config
  getRoutes : List Route
  isBuildRequired : Route → Bool
  buildEntryResult : List Route → Except E Unit

variable {Module Route E Config : Type}

/-- `const modules = [...getCoreModules(), ...getEnabledExtensions()]` -/
def modules (c : Collaborators Module Route E Config) : List Module :=
  c.getCoreModules ++ c.getEnabledExtensions

/-- `modules.forEach` route loading: each module's `loadModuleRoutes` is
attempted in order; on an exception the error is logged and
`process.exit(0)` ends the process (`false` = the process died). -/
def loadRoutesTrace (Route : Type) (f : Module → Except E Unit) :
    List Module → List (Event Module Route) × Bool
  | [] => ([], true)
  | m :: ms =>
    match f m with
    | .ok _ =>
      let rest := loadRoutesTrace Route f ms
      (.loadRoute m :: rest.1, rest.2)
    | .error _ => ([.loadRoute m, .logError, .exit 0], false)

/-- The `for (const module of modules) await loadBootstrapScript(module)`
loop: strictly sequential, stops at the first exception (`false` = an
exception escaped the loop). -/
def bootstrapLoopTrace (Route : Type) (g : Module → Except E Unit) :
    List Module → List (Event Module Route) × Bool
  | [] => ([], true)
  | m :: ms =>
    match g m with
    | .ok _ =>
      let rest := bootstrapLoopTrace Route g ms
      (.bootstrap m :: rest.1, rest.2)
    | .error _ => ([.bootstrap m], false)

/-- Lines 59–63: `getRoutes()`, `await buildEntry(routes.filter(r =>
isBuildRequired(r)))`, then `await compile(routes)`.  A rejection from
`buildEntry` escapes the exported function, so `compile` is not
reached. -/
def buildPhase (c : Collaborators Module Route E Config) :
    List (Event Module Route) :=
  .buildEntry (c.getRoutes.filter c.isBuildRequired) ::
    match c.buildEntryResult (c.getRoutes.filter c.isBuildRequired) with
    | .ok _ => [.compile c.getRoutes]
    | .error _ => []

/-- `validateConfiguration(config)` inside the `try`: on an exception the
shared `catch` logs and calls `process.exit(0)`. -/
def validatePhase (c : Collaborators Module Route E Config) :
    List (Event Module Route) :=
  .validateConfig ::
    match c.validateConfiguration c.config with
    | .ok _ => buildPhase c
    | .error _ => [.logError, .exit 0]

/-- The exported async function (lines 42–64): the bootstrap loop, then
`lockHooks(); lockRegistry();` and configuration validation, all under
one `try` whose `catch` logs the error and calls `process.exit(0)`. -/
def serverTrace (c : Collaborators Module Route E Config) :
    List (Event Module Route) :=
  let boot := bootstrapLoopTrace Route c.loadBootstrapScript (modules c)
  boot.1 ++
    (if boot.2 then Event.lockHooks :: Event.lockRegistry :: validatePhase c
     else [.logError, .exit 0])

/-- The whole run: module-import side effects (route loading, build
directory cleanup — both branches of the `existsSync` test leave a fresh
empty directory) followed by the exported function. -/
def startupTrace (c : Collaborators Module Route E Config) :
    List (Event Module Route) :=
  let routes := loadRoutesTrace Route c.loadModuleRoutes (modules c)
  routes.1 ++ (if routes.2 then Event.cleanBuildDir :: serverTrace c else [])

/-- Recognizes bootstrap-invocation events. -/
def isBootstrapEvt : Event Module Route → Bool
  | .bootstrap _ => true
  | _ => false

/-- Recognizes the `lockHooks` event. -/
def isLockHooksEvt : Event Module Route → Bool
  | .lockHooks => true
  | _ => false

/-- Recognizes the `lockRegistry` event. -/
def isLockRegistryEvt : Event Module Route → Bool
  | .lockRegistry => true
  | _ => false

/-- Arguments of the `buildEntry` invocations in a trace. -/
def buildEntryArgsOf (t : List (Event Module Route)) : List (List Route) :=
  t.filterMap fun e =>
    match e with
    | .buildEntry rs => some rs
    | _ => none

/-- Arguments of the `compile` invocations in a trace. -/
def compileArgsOf (t : List (Event Module Route)) : List (List Route) :=
  t.filterMap fun e =>
    match e with
    | .compile rs => some rs
    | _ => none

/-- A concrete, fully successful collaborator instance (two core modules,
one enabled extension, one route requiring a build). -/
def demoCollab : Collaborators String String String Unit :=
  { getCoreModules := ["catalog", "checkout"]
    getEnabledExtensions := ["sample-extension"]
    loadModuleRoutes := fun _ => .ok ()
    loadBootstrapScript := fun _ => .ok ()
    validateConfiguration := fun _ => .ok ()
    config := ()
    getRoutes := ["homepage", "cartApi"]
    isBuildRequired := fun r => r == "homepage"
    buildEntryResult := fun _ => .ok () }

/-- A concrete instance whose single module's bootstrap script throws. -/
def bootFailCollab : Collaborators String String String Unit :=
  { getCoreModules := ["m1"]
    getEnabledExtensions := []
    loadModuleRoutes := fun _ => .ok ()
    loadBootstrapScript := fun _ => .error "bootstrap exception"
    validateConfiguration := fun _ => .ok ()
    config := ()
    getRoutes := []
    isBuildRequired := fun _ => false
    buildEntryResult := fun _ => .ok () }

/-- A concrete instance whose single module's route declarations fail to
load/parse. -/
def routeFailCollab : Collaborators String String String Unit :=
  { getCoreModules := ["m1"]
    getEnabledExtensions := []
    loadModuleRoutes := fun _ => .error "route parse exception"
    loadBootstrapScript := fun _ => .ok ()
    validateConfiguration := fun _ => .ok ()
    config := ()
    getRoutes := []
    isBuildRequired := fun _ => false
    buildEntryResult := fun _ => .ok () }

/-! ## `Product.image` GraphQL resolver
(`src/modules/catalog/graphql/types/Product/Image/ProductImage.resolvers.ts`)

`product.originImage` may be `undefined`, so it is an `Option String`;
`baseUrl` (the result of `getConfig('shop.homeUrl',
`http://localhost:${port}`)`) and the generated `uuid` are parameters. -/

/-- JS template-literal interpolation of a possibly-`undefined` string:
`undefined` interpolates as the text `"undefined"`. -/
def jsInterp : Option String → String
  | none => "undefined"
  | some s => s

/-- JS truthiness of a possibly-`undefined` string: `undefined` and the
empty string are falsy. -/
def jsTruthy : Option String → Bool
  | none => false
  | some s => s != ""

structure ImageObject where
  alt : String
  url : String
  uuid : String
  origin : String
deriving DecidableEq, Repr

/-- The default second argument of `getConfig('shop.homeUrl', ...)`. -/
def defaultHomeUrl (port : String) : String :=
  "http://localhost:" ++ port

/-- The `Product.image` resolver body: `mainImage` is the template
concatenation of the base URL and `product.originImage`; the image
object is returned when `mainImage` is truthy (non-empty), else
`null`. -/
def productImageResolver (baseUrl uuid name : String)
    (originImage : Option String) : Option ImageObject :=
  let mainImage := baseUrl ++ jsInterp originImage
  if mainImage ≠ "" then
    some { alt := name
           url :=
             if jsTruthy originImage &&
                 (jsInterp originImage).startsWith "http" then
               jsInterp originImage
             else mainImage
           uuid := uuid
           origin := mainImage }
  else none

/-! ## `loadCsvTranslationFiles`
(`src/lib/webpack/loaders/loadTranslationFromCsv.js`)

The filesystem is a parameter: `folderExists` is the `fs.existsSync`
result for the translation folder of the configured language, `files`
the `readdir` listing (in directory-listing order), and `readCsvFile`
the per-file parse, which may reject.  A rejection of any parse makes
`Promise.all` reject, which the surrounding `try` catches: the error is
logged and `{}` is returned — the function never throws. -/

def exceptIsError : Except ε δ → Bool
  | .error _ => true
  | .ok _ => false

/-- Suffix of the character list starting at its last `'.'`, if any. -/
def extAfter : List Char → Option (List Char)
  | [] => none
  | c :: cs =>
    match extAfter cs with
    | some e => some e
    | none => if c = '.' then some (c :: cs) else none

/-- Model of Node's `path.extname` on a bare file name: the suffix from
the last dot, except that a dot in leading position marks a hidden file,
not an extension. -/
def extname (s : String) : String :=
  match s.toList with
  | [] => ""
  | _ :: rest =>
    match extAfter rest with
    | some e => String.mk e
    | none => ""

/-- JS object assignment `results[key] = value`: overwrite in place if
the key exists, else append. -/
def objInsert (m : List (String × α)) (k : String) (v : α) :
    List (String × α) :=
  match m with
  | [] => [(k, v)]
  | p :: rest => if p.1 == k then (k, v) :: rest else p :: objInsert rest k v

/-- JS object property read. -/
def objLookup (m : List (String × α)) (k : String) : Option α :=
  match m with
  | [] => none
  | p :: rest => if p.1 == k then some p.2 else objLookup rest k

/-- The last binding of `k` inside one file's parsed data. -/
def lastBinding (d : List (String × String)) (k : String) : Option String :=
  match d with
  | [] => none
  | p :: rest =>
    match lastBinding rest k with
    | some v => some v
    | none => if p.1 == k then some p.2 else none

/-- The value of `k` contributed by the last file (in listing order)
that binds it. -/
def lastValueAcross (datas : List (List (String × String))) (k : String) :
    Option String :=
  match datas with
  | [] => none
  | d :: rest =>
    match lastValueAcross rest k with
    | some v => some v
    | none => lastBinding d k

/-- Return value of `loadCsvTranslationFiles`: the translation object
together with whether an error was logged. -/
structure TranslationResult where
  result : List (String × String)
  logged : Bool
deriving DecidableEq, Repr

/-- `loadCsvTranslationFiles`: empty object when the folder is missing;
on any read/parse rejection the error is logged and the empty object
returned; otherwise the `.csv` files' key-value pairs are merged into
one object in listing order, later files overwriting earlier ones. -/
def loadCsvTranslationFiles (folderExists : Bool) (files : List String)
    (readCsvFile : String → Except String (List (String × String))) :
    TranslationResult :=
  if !folderExists then { result := [], logged := false }
  else
    let csvFiles := files.filter (fun f => extname f == ".csv")
    if csvFiles.any (fun f => exceptIsError (readCsvFile f)) then
      { result := [], logged := true }
    else
      { result :=
          csvFiles.foldl (fun acc f =>
            match readCsvFile f with
            | .ok fileData =>
                fileData.foldl (fun a p => objInsert a p.1 p.2) acc
            | .error _ => acc) []
        logged := false }

/-- First-wins choice on options (JS `??`-style helper for the
last-writer characterization). -/
def optOr (a b : Option String) : Option String :=
  match a with
  | some v => some v
  | none => b

/-- A concrete translation directory: two `.csv` files that both bind
`"hello"`, plus a non-`.csv` file that is filtered out. -/
def demoTranslationFiles : List String :=
  ["greetings.csv", "readme.txt", "overrides.csv"]

def demoReadCsv : String → Except String (List (String × String))
  | "greetings.csv" => .ok [("hello", "bonjour"), ("bye", "salut")]
  | "overrides.csv" => .ok [("hello", "coucou")]
  | f => .error ("unexpected file: " ++ f)

/-! ## Front-store cart reducer
(`src/components/frontStore/cart/cartContext.tsx`)

`CartData` is modelled by its `error`/`errors` fields plus a
string-valued assoc list for the remaining (extensible) fields; the
numeric and list fields are irrelevant to the loading invariant.  A payload
(`Partial<CartData>`) marks each modelled key's presence with an outer
`Option`. -/

structure LoadingStates where
  addingItem : Bool
  removingItem : Option String
  updatingItem : Option String
  addingPaymentMethod : Bool
  addingShippingMethod : Bool
  addingShippingAddress : Bool
  addingBillingAddress : Bool
  addingContactInfo : Bool
  applyingCoupon : Bool
  removingCoupon : Bool
  fetchingShippingMethods : Bool
deriving DecidableEq, Repr

/-- All loading states idle (the object literal the reducer assigns in
`SET_CART` and `SET_ERROR`). -/
def idleLoadingStates : LoadingStates :=
  { addingItem := false, removingItem := none, updatingItem := none
    addingPaymentMethod := false, addingShippingMethod := false
    addingShippingAddress := false, addingBillingAddress := false
    addingContactInfo := false, applyingCoupon := false
    removingCoupon := false, fetchingShippingMethods := false }

/-- `Object.values(loadingStates).some(s => s === true ||
(typeof s === 'string' && s !== null))`: a Bool entry is active when
`true`, an item-id entry when it holds a string. -/
def anyActive (ls : LoadingStates) : Bool :=
  ls.addingItem || ls.removingItem.isSome || ls.updatingItem.isSome ||
    ls.addingPaymentMethod || ls.addingShippingMethod ||
    ls.addingShippingAddress || ls.addingBillingAddress ||
    ls.addingContactInfo || ls.applyingCoupon || ls.removingCoupon ||
    ls.fetchingShippingMethods

structure CartData where
  error : Option String
  errors : List String
  fields : List (String × String)
deriving DecidableEq, Repr

structure CartPayload where
  error : Option (Option String)
  errors : Option (List String)
  fields : List (String × String)
deriving DecidableEq, Repr

/-- `Object.assign(draft.data, action.payload)` on the modelled keys. -/
def assignCartData (d : CartData) (p : CartPayload) : CartData :=
  { error := p.error.getD d.error
    errors := p.errors.getD d.errors
    fields := p.fields.foldl (fun a q => objInsert a q.1 q.2) d.fields }

/-- `draft.data = action.payload as CartData` when no data is present. -/
def cartDataOfPayload (p : CartPayload) : CartData :=
  { error := p.error.getD none
    errors := p.errors.getD []
    fields := p.fields }

structure SyncStatus where
  syncing : Bool
  synced : Bool
  trigger : Option String
deriving DecidableEq, Repr

structure SyncPayload where
  syncing : Option Bool
  synced : Option Bool
  trigger : Option (Option String)
deriving DecidableEq, Repr

/-- `Object.assign(draft.syncStatus, action.payload)`. -/
def assignSyncStatus (s : SyncStatus) (p : SyncPayload) : SyncStatus :=
  { syncing := p.syncing.getD s.syncing
    synced := p.synced.getD s.synced
    trigger := p.trigger.getD s.trigger }

inductive LoadingOp where
  | addingItem
  | removingItem
  | updatingItem
  | addingPaymentMethod
  | addingShippingMethod
  | addingShippingAddress
  | addingBillingAddress
  | addingContactInfo
  | applyingCoupon
  | removingCoupon
  | fetchingShippingMethods
deriving DecidableEq, Repr

/-- `itemId || null`: `undefined` and the empty string are falsy. -/
def itemIdOrNull (itemId : Option String) : Option String :=
  match itemId with
  | some s => if s == "" then none else some s
  | none => none

/-- `SET_SPECIFIC_LOADING`'s update of one entry: the two item-keyed
entries store `loading ? itemId || null : null`, the others store
`loading`. -/
def setLoadingState (ls : LoadingStates) (op : LoadingOp) (loading : Bool)
    (itemId : Option String) : LoadingStates :=
  match op with
  | .removingItem =>
      { ls with removingItem := if loading then itemIdOrNull itemId else none }
  | .updatingItem =>
      { ls with updatingItem := if loading then itemIdOrNull itemId else none }
  | .addingItem => { ls with addingItem := loading }
  | .addingPaymentMethod => { ls with addingPaymentMethod := loading }
  | .addingShippingMethod => { ls with addingShippingMethod := loading }
  | .addingShippingAddress => { ls with addingShippingAddress := loading }
  | .addingBillingAddress => { ls with addingBillingAddress := loading }
  | .addingContactInfo => { ls with addingContactInfo := loading }
  | .applyingCoupon => { ls with applyingCoupon := loading }
  | .removingCoupon => { ls with removingCoupon := loading }
  | .fetchingShippingMethods => { ls with fetchingShippingMethods := loading }

inductive CartAction where
  | setCart (payload : CartPayload)
  | setSpecificLoading (operation : LoadingOp) (loading : Bool)
      (itemId : Option String)
  | setError (payload : Option String)
  | clearError
  | setSyncStatus (payload : SyncPayload)
deriving DecidableEq, Repr

structure CartState where
  data : Option CartData
  loading : Bool
  setting : Bool
  loadingStates : LoadingStates
  syncStatus : SyncStatus
deriving DecidableEq, Repr

/-- The cart reducer (`cartReducer` in `cartContext.tsx`). -/
def cartReducer (state : CartState) (action : CartAction) : CartState :=
  match action with
  | .setCart payload =>
      let newData :=
        match state.data with
        | some d => some { assignCartData d payload with error := none }
        | none => some (cartDataOfPayload payload)
      { state with data := newData, loadingStates := idleLoadingStates,
                   loading := false }
  | .setSpecificLoading op loading itemId =>
      let ls := setLoadingState state.loadingStates op loading itemId
      { state with loadingStates := ls, loading := anyActive ls }
  | .setError payload =>
      let newData :=
        match state.data with
        | some d => some { d with error := payload }
        | none => none
      { state with data := newData, loadingStates := idleLoadingStates,
                   loading := false }
  | .clearError =>
      match state.data with
      | some d =>
          { state with data := some { d with error := none, errors := [] } }
      | none => state
  | .setSyncStatus payload =>
      { state with syncStatus := assignSyncStatus state.syncStatus payload }

/-- The default cart of `hydratedInitialState` (its string-valued
fields; `addItemApi` comes from the `addMineCartItemApi` prop). -/
def defaultCartData (addMineCartItemApi : String) : CartData :=
  { error := none
    errors := []
    fields := [("currency", "USD"), ("coupon", ""),
      ("addItemApi", addMineCartItemApi), ("addPaymentMethodApi", ""),
      ("addShippingMethodApi", ""), ("addAddressApi", ""),
      ("applyCouponApi", ""), ("addNoteApi", ""),
      ("addContactInfoApi", ""), ("checkoutApi", "")] }

/-- `hydratedInitialState`: the server-provided cart if any, else the
default cart; not loading; all loading states idle; not synced. -/
def hydratedInitialState (cart : Option CartData)
    (addMineCartItemApi : String) : CartState :=
  { data := some (cart.getD (defaultCartData addMineCartItemApi))
    loading := false
    setting := false
    loadingStates := idleLoadingStates
    syncStatus := { syncing := false, synced := false, trigger := none } }

theorem loadRoutesTrace_ok (f : Module → Except E Unit) (ms : List Module)
    (h : ∀ m ∈ ms, f m = .ok ()) :
    loadRoutesTrace Route f ms = (ms.map .loadRoute, true) := by
  induction ms with
  | nil => rfl
  | cons m ms ih =>
    have hm : f m = .ok () := h m (by simp)
    have hrest := ih (fun x hx => h x (by simp [hx]))
    simp [loadRoutesTrace, hm, hrest]

theorem bootstrapLoopTrace_ok (g : Module → Except E Unit) (ms : List Module)
    (h : ∀ m ∈ ms, g m = .ok ()) :
    bootstrapLoopTrace Route g ms = (ms.map .bootstrap, true) := by
  induction ms with
  | nil => rfl
  | cons m ms ih =>
    have hm : g m = .ok () := h m (by simp)
    have hrest := ih (fun x hx => h x (by simp [hx]))
    simp [bootstrapLoopTrace, hm, hrest]

theorem loadRoutesTrace_fail (f : Module → Except E Unit)
    (pre : List Module) (m : Module) (post : List Module) (e : E)
    (hpre : ∀ x ∈ pre, f x = .ok ()) (hm : f m = .error e) :
    loadRoutesTrace Route f (pre ++ m :: post) =
      (pre.map .loadRoute ++ [.loadRoute m, .logError, .exit 0], false) := by
  induction pre with
  | nil => simp [loadRoutesTrace, hm]
  | cons x pre ih =>
    have hx : f x = .ok () := hpre x (by simp)
    have hrest := ih (fun y hy => hpre y (by simp [hy]))
    simp [loadRoutesTrace, hx, hrest]

theorem bootstrapLoopTrace_fail (g : Module → Except E Unit)
    (pre : List Module) (m : Module) (post : List Module) (e : E)
    (hpre : ∀ x ∈ pre, g x = .ok ()) (hm : g m = .error e) :
    bootstrapLoopTrace Route g (pre ++ m :: post) =
      (pre.map .bootstrap ++ [.bootstrap m], false) := by
  induction pre with
  | nil => simp [bootstrapLoopTrace, hm]
  | cons x pre ih =>
    have hx : g x = .ok () := hpre x (by simp)
    have hrest := ih (fun y hy => hpre y (by simp [hy]))
    simp [bootstrapLoopTrace, hx, hrest]

/-- Structural form of a fully successful startup run. -/
theorem startupTrace_success (c : Collaborators Module Route E Config)
    (hr : ∀ m ∈ modules c, c.loadModuleRoutes m = .ok ())
    (hb : ∀ m ∈ modules c, c.loadBootstrapScript m = .ok ())
    (hv : c.validateConfiguration c.config = .ok ())
    (he : c.buildEntryResult (c.getRoutes.filter c.isBuildRequired) = .ok ()) :
    startupTrace c =
      (modules c).map .loadRoute ++ [.cleanBuildDir] ++
        (modules c).map .bootstrap ++
        [.lockHooks, .lockRegistry, .validateConfig,
         .buildEntry (c.getRoutes.filter c.isBuildRequired),
         .compile c.getRoutes] := by
  simp [startupTrace, loadRoutesTrace_ok _ _ hr, serverTrace,
    bootstrapLoopTrace_ok _ _ hb, validatePhase, hv, buildPhase, he]

theorem filter_isBootstrapEvt_loadRoutesTrace (f : Module → Except E Unit)
    (ms : List Module) :
    ((loadRoutesTrace Route f ms).1.filter isBootstrapEvt) = [] := by
  induction ms with
  | nil => rfl
  | cons m ms ih =>
    cases hm : f m <;> simp [loadRoutesTrace, hm, isBootstrapEvt, ih]

theorem filter_isBootstrapEvt_bootstrapLoopTrace (Route : Type)
    (g : Module → Except E Unit) (ms : List Module) :
    ∃ r, ((bootstrapLoopTrace Route g ms).1.filter isBootstrapEvt) =
      (ms.take r).map .bootstrap := by
  induction ms with
  | nil => exact ⟨0, rfl⟩
  | cons m ms ih =>
    cases hm : g m with
    | ok v =>
      obtain ⟨r, hr⟩ := ih
      exact ⟨r + 1, by simp [bootstrapLoopTrace, hm, isBootstrapEvt, hr]⟩
    | error e =>
      exact ⟨1, by simp [bootstrapLoopTrace, hm, isBootstrapEvt]⟩

theorem filter_isBootstrapEvt_buildPhase (c : Collaborators Module Route E Config) :
    (buildPhase c).filter isBootstrapEvt = [] := by
  cases h : c.buildEntryResult (c.getRoutes.filter c.isBuildRequired) <;>
    simp [buildPhase, h, isBootstrapEvt]

theorem filter_isBootstrapEvt_validatePhase (c : Collaborators Module Route E Config) :
    (validatePhase c).filter isBootstrapEvt = [] := by
  cases h : c.validateConfiguration c.config <;>
    simp [validatePhase, h, isBootstrapEvt, filter_isBootstrapEvt_buildPhase]

theorem filter_isBootstrapEvt_serverTrace (c : Collaborators Module Route E Config) :
    (serverTrace c).filter isBootstrapEvt =
      (bootstrapLoopTrace Route c.loadBootstrapScript
        (modules c)).1.filter isBootstrapEvt := by
  cases hb : (bootstrapLoopTrace Route c.loadBootstrapScript (modules c)).2 <;>
    simp [serverTrace, hb, List.filter_append, isBootstrapEvt,
      filter_isBootstrapEvt_validatePhase]

/-- **C5.** The startup module list is all core modules followed by the
enabled extensions in their configured order, and bootstrap scripts run
strictly sequentially in that order: the bootstrap invocations appearing
in any startup trace are exactly an initial segment of the module list,
in order (module N+1's bootstrap is not begun before module N's awaited
bootstrap has settled). -/
theorem modules_order_and_bootstrap_sequential
    (c : Collaborators Module Route E Config) :
    modules c = c.getCoreModules ++ c.getEnabledExtensions ∧
    ∃ r, ((startupTrace c).filter isBootstrapEvt) =
      ((modules c).take r).map Event.bootstrap := by
  refine ⟨rfl, ?_⟩
  cases hroutes : (loadRoutesTrace Route c.loadModuleRoutes (modules c)).2 with
  | false =>
    exact ⟨0, by simp [startupTrace, hroutes, List.filter_append,
      filter_isBootstrapEvt_loadRoutesTrace]⟩
  | true =>
    obtain ⟨r, hr⟩ := filter_isBootstrapEvt_bootstrapLoopTrace Route
      c.loadBootstrapScript (modules c)
    refine ⟨r, ?_⟩
    simp [startupTrace, hroutes, List.filter_append,
      filter_isBootstrapEvt_loadRoutesTrace, isBootstrapEvt,
      filter_isBootstrapEvt_serverTrace, hr]

/-- Structural form of a run in which route loading and every bootstrap
succeed (the configuration-validation and build outcomes are left
open). -/
theorem startupTrace_bootOk (c : Collaborators Module Route E Config)
    (hr : ∀ m ∈ modules c, c.loadModuleRoutes m = .ok ())
    (hb : ∀ m ∈ modules c, c.loadBootstrapScript m = .ok ()) :
    startupTrace c =
      (modules c).map .loadRoute ++ [.cleanBuildDir] ++
        (modules c).map .bootstrap ++ [.lockHooks, .lockRegistry] ++
        validatePhase c := by
  simp [startupTrace, loadRoutesTrace_ok _ _ hr, serverTrace,
    bootstrapLoopTrace_ok _ _ hb]

/-- **C6.** In a successful run the phases execute in the prescribed
order: route loading for every module, then (after the build-directory
cleanup, which precedes both entry generation and the compile
invocation) the bootstrap of every module, then the lock, then
configuration validation, then the Build Gate filtering
(`routes.filter(isBuildRequired)`) feeding entry generation, then the
compile invocation. -/
theorem pipeline_phase_order (c : Collaborators Module Route E Config)
    (hr : ∀ m ∈ modules c, c.loadModuleRoutes m = .ok ())
    (hb : ∀ m ∈ modules c, c.loadBootstrapScript m = .ok ())
    (hv : c.validateConfiguration c.config = .ok ())
    (he : c.buildEntryResult (c.getRoutes.filter c.isBuildRequired) = .ok ()) :
    startupTrace c =
      (modules c).map .loadRoute ++ [.cleanBuildDir] ++
        (modules c).map .bootstrap ++
        [.lockHooks, .lockRegistry, .validateConfig,
         .buildEntry (c.getRoutes.filter c.isBuildRequired),
         .compile c.getRoutes] :=
  startupTrace_success c hr hb hv he

/-- Witness for C6 at a concrete collaborator instance. -/
theorem pipeline_phase_order_witness :
    startupTrace demoCollab =
      (modules demoCollab).map .loadRoute ++ [.cleanBuildDir] ++
        (modules demoCollab).map .bootstrap ++
        [.lockHooks, .lockRegistry, .validateConfig,
         .buildEntry (demoCollab.getRoutes.filter demoCollab.isBuildRequired),
         .compile demoCollab.getRoutes] :=
  pipeline_phase_order demoCollab (fun _ _ => rfl) (fun _ _ => rfl) rfl rfl

theorem countP_lock_validatePhase (c : Collaborators Module Route E Config) :
    (validatePhase c).countP isLockHooksEvt = 0 ∧
    (validatePhase c).countP isLockRegistryEvt = 0 := by
  cases hv : c.validateConfiguration c.config <;>
    cases he : c.buildEntryResult (c.getRoutes.filter c.isBuildRequired) <;>
      simp [validatePhase, buildPhase, hv, he, isLockHooksEvt, isLockRegistryEvt]

/-- **C4.** If every module's routes load and every bootstrap completes,
the lock transition happens exactly once, strictly after every module's
bootstrap and immediately before configuration validation; and no
operation of the (spec-modelled) registry/hook-table API can clear the
lock flag, so no unlock transition exists (re-locking is a no-op). -/
theorem lock_once_after_bootstrap_before_validation
    (c : Collaborators Module Route E Config)
    (hr : ∀ m ∈ modules c, c.loadModuleRoutes m = .ok ())
    (hb : ∀ m ∈ modules c, c.loadBootstrapScript m = .ok ()) :
    ((startupTrace c).countP isLockHooksEvt = 1 ∧
     (startupTrace c).countP isLockRegistryEvt = 1) ∧
    (∃ pre post, startupTrace c = pre ++ [.lockHooks, .lockRegistry] ++ post ∧
      (∀ m ∈ modules c, Event.bootstrap m ∈ pre) ∧
      post.head? = some .validateConfig) ∧
    (∀ (α : Type) (r : Registry α) (n : String) (f : α → α) (p : Nat),
      (lockRegistry r).locked = true ∧
      lockRegistry (lockRegistry r) = lockRegistry r ∧
      (addProcessor n f p r).2.locked = r.locked ∧
      (addFinalProcessor n f r).2.locked = r.locked) ∧
    (∀ (F : Type) (h : Hookable F) (n : String) (k : HookKind) (f : F) (p : Nat),
      (lockHookable h).locked = true ∧
      lockHookable (lockHookable h) = lockHookable h ∧
      (addHook n k f p h).2.locked = h.locked) := by
  have hst := startupTrace_bootOk c hr hb
  refine ⟨?_, ?_, ?_, ?_⟩
  · rw [hst]
    have hcount := countP_lock_validatePhase c
    constructor <;>
      simp [List.countP_append, List.countP_map, Function.comp_def,
        isLockHooksEvt, isLockRegistryEvt, hcount.1, hcount.2]
  · refine ⟨(modules c).map .loadRoute ++ [.cleanBuildDir] ++
      (modules c).map .bootstrap, validatePhase c, ?_, ?_, ?_⟩
    · simp [hst]
    · intro m hm
      simp only [List.mem_append, List.mem_map]
      exact Or.inr ⟨m, hm, rfl⟩
    · rfl
  · intro α r n f p
    refine ⟨rfl, rfl, ?_, ?_⟩ <;>
      cases hl : r.locked <;> simp [addProcessor, addFinalProcessor, hl]
  · intro F h n k f p
    refine ⟨rfl, rfl, ?_⟩
    cases hl : h.locked <;> simp [addHook, hl]

/-- Witness for C4 at a concrete collaborator instance. -/
theorem lock_once_after_bootstrap_witness :
    (startupTrace demoCollab).countP isLockHooksEvt = 1 ∧
    (startupTrace demoCollab).countP isLockRegistryEvt = 1 :=
  (lock_once_after_bootstrap_before_validation demoCollab
    (fun _ _ => rfl) (fun _ _ => rfl)).1

theorem filterMap_none_eq_nil {α β : Type} (l : List α) :
    l.filterMap (fun _ => (none : Option β)) = [] := by
  induction l with
  | nil => rfl
  | cons a l ih => simp [List.filterMap_cons, ih]

/-- **C7.** In a successful run, `buildEntry` is invoked exactly once,
with exactly those routes of the global route table for which
`isBuildRequired` is true, while `compile` is invoked exactly once with
the complete route set returned by `getRoutes` — including routes whose
build-requirement is false. -/
theorem buildEntry_filtered_compile_full
    (c : Collaborators Module Route E Config)
    (hr : ∀ m ∈ modules c, c.loadModuleRoutes m = .ok ())
    (hb : ∀ m ∈ modules c, c.loadBootstrapScript m = .ok ())
    (hv : c.validateConfiguration c.config = .ok ())
    (he : c.buildEntryResult (c.getRoutes.filter c.isBuildRequired) = .ok ()) :
    buildEntryArgsOf (startupTrace c) = [c.getRoutes.filter c.isBuildRequired] ∧
    compileArgsOf (startupTrace c) = [c.getRoutes] ∧
    ∀ r, r ∈ c.getRoutes.filter c.isBuildRequired ↔
      (r ∈ c.getRoutes ∧ c.isBuildRequired r = true) := by
  refine ⟨?_, ?_, fun r => List.mem_filter⟩ <;>
    rw [startupTrace_success c hr hb hv he] <;>
      simp [buildEntryArgsOf, compileArgsOf, List.filterMap_append,
        List.filterMap_map, Function.comp_def, filterMap_none_eq_nil]

/-- Witness for C7 at a concrete collaborator instance. -/
theorem buildEntry_filtered_compile_full_witness :
    buildEntryArgsOf (startupTrace demoCollab) = [["homepage"]] ∧
    compileArgsOf (startupTrace demoCollab) = [["homepage", "cartApi"]] :=
  ⟨(buildEntry_filtered_compile_full demoCollab
      (fun _ _ => rfl) (fun _ _ => rfl) rfl rfl).1,
   (buildEntry_filtered_compile_full demoCollab
      (fun _ _ => rfl) (fun _ _ => rfl) rfl rfl).2.1⟩

/-- **C1 counterexample.** A module whose bootstrap throws: the run logs
the error and terminates immediately — but via `process.exit(0)`, i.e.
with exit status 0, not with a non-zero/aborted status as claimed. -/
theorem bootstrap_failure_exit_code_zero :
    startupTrace bootFailCollab =
      [.loadRoute "m1", .cleanBuildDir, .bootstrap "m1", .logError,
       .exit 0] := by
  rfl

/-- **C1 (amended).** A failure to load/parse a module's route
declarations, and any exception thrown in a module's bootstrap, is
fatal: the error is logged and the process terminates immediately via
`process.exit(0)` — exit status 0 — with no partial-startup recovery (no
later module is processed, and no lock/validation/build step runs). -/
theorem startup_failure_logs_and_exits_zero
    (c : Collaborators Module Route E Config)
    (pre : List Module) (m : Module) (post : List Module) (e : E) :
    (modules c = pre ++ m :: post →
      (∀ x ∈ pre, c.loadModuleRoutes x = .ok ()) →
      c.loadModuleRoutes m = .error e →
      startupTrace c =
        pre.map .loadRoute ++ [.loadRoute m, .logError, .exit 0]) ∧
    ((∀ x ∈ modules c, c.loadModuleRoutes x = .ok ()) →
      modules c = pre ++ m :: post →
      (∀ x ∈ pre, c.loadBootstrapScript x = .ok ()) →
      c.loadBootstrapScript m = .error e →
      startupTrace c =
        (modules c).map .loadRoute ++ [.cleanBuildDir] ++
          pre.map .bootstrap ++ [.bootstrap m, .logError, .exit 0]) := by
  constructor
  · intro hmod hpre hm
    rw [startupTrace, hmod, loadRoutesTrace_fail c.loadModuleRoutes pre m post e hpre hm]
    simp
  · intro hroutes hmod hpre hm
    rw [startupTrace, loadRoutesTrace_ok c.loadModuleRoutes (modules c) hroutes,
      serverTrace, hmod,
      bootstrapLoopTrace_fail c.loadBootstrapScript pre m post e hpre hm]
    simp [hmod]

/-- Witness for the amended C1, covering both failure kinds. -/
theorem startup_failure_logs_and_exits_zero_witness :
    startupTrace routeFailCollab = [.loadRoute "m1", .logError, .exit 0] ∧
    startupTrace bootFailCollab =
      [.loadRoute "m1", .cleanBuildDir, .bootstrap "m1", .logError,
       .exit 0] :=
  ⟨(startup_failure_logs_and_exits_zero routeFailCollab [] "m1" []
      "route parse exception").1 rfl (by simp) rfl,
   (startup_failure_logs_and_exits_zero bootFailCollab [] "m1" []
      "bootstrap exception").2 (fun _ _ => rfl) rfl (by simp) rfl⟩

theorem mem_insertByPriority {z x : (α → α) × Nat}
    {l : List ((α → α) × Nat)} :
    z ∈ insertByPriority x l ↔ z = x ∨ z ∈ l := by
  induction l with
  | nil => simp [insertByPriority]
  | cons y ys ih =>
    by_cases hle : y.2 ≤ x.2
    · simp only [insertByPriority, if_pos hle, List.mem_cons, ih]
      tauto
    · simp [insertByPriority, hle]

theorem pairwise_insertByPriority (x : (α → α) × Nat)
    (l : List ((α → α) × Nat))
    (h : l.Pairwise (fun a b => a.2 ≤ b.2)) :
    (insertByPriority x l).Pairwise (fun a b => a.2 ≤ b.2) := by
  induction l with
  | nil => simp [insertByPriority]
  | cons y ys ih =>
    rw [List.pairwise_cons] at h
    by_cases hle : y.2 ≤ x.2
    · rw [insertByPriority, if_pos hle, List.pairwise_cons]
      refine ⟨fun z hz => ?_, ih h.2⟩
      rcases mem_insertByPriority.1 hz with rfl | hz
      · exact hle
      · exact h.1 z hz
    · rw [insertByPriority, if_neg hle, List.pairwise_cons]
      have hxy : x.2 ≤ y.2 := le_of_not_le hle
      refine ⟨fun z hz => ?_, List.pairwise_cons.2 h⟩
      rcases List.mem_cons.1 hz with rfl | hz
      · exact hxy
      · exact le_trans hxy (h.1 z hz)

theorem pairwise_foldl_insertByPriority (l acc : List ((α → α) × Nat))
    (hacc : acc.Pairwise (fun a b => a.2 ≤ b.2)) :
    (l.foldl (fun a x => insertByPriority x a) acc).Pairwise
      (fun a b => a.2 ≤ b.2) := by
  induction l generalizing acc with
  | nil => exact hacc
  | cons x xs ih => exact ih _ (pairwise_insertByPriority x acc hacc)

theorem insertByPriority_perm (x : (α → α) × Nat)
    (l : List ((α → α) × Nat)) :
    List.Perm (insertByPriority x l) (x :: l) := by
  induction l with
  | nil => rfl
  | cons y ys ih =>
    by_cases hle : y.2 ≤ x.2
    · rw [insertByPriority, if_pos hle]
      exact (ih.cons y).trans (List.Perm.swap x y ys)
    · rw [insertByPriority, if_neg hle]

theorem foldl_insertByPriority_perm (l acc : List ((α → α) × Nat)) :
    List.Perm (l.foldl (fun a x => insertByPriority x a) acc) (acc ++ l) := by
  induction l generalizing acc with
  | nil => simp
  | cons x xs ih =>
    rw [List.foldl_cons]
    refine (ih (insertByPriority x acc)).trans ?_
    exact (List.Perm.append_right xs
      ((insertByPriority_perm x acc))).trans List.perm_middle.symm

theorem filter_insertByPriority_ne (x : (α → α) × Nat)
    (l : List ((α → α) × Nat)) (q : Nat) (hq : x.2 ≠ q) :
    (insertByPriority x l).filter (fun y => y.2 == q) =
      l.filter (fun y => y.2 == q) := by
  induction l with
  | nil => simp [insertByPriority, hq]
  | cons y ys ih =>
    by_cases hle : y.2 ≤ x.2 <;>
      simp [insertByPriority, hle, List.filter_cons, ih, hq]

theorem filter_insertByPriority_eq (x : (α → α) × Nat)
    (l : List ((α → α) × Nat))
    (h : l.Pairwise (fun a b => a.2 ≤ b.2)) :
    (insertByPriority x l).filter (fun y => y.2 == x.2) =
      l.filter (fun y => y.2 == x.2) ++ [x] := by
  induction l with
  | nil => simp [insertByPriority]
  | cons y ys ih =>
    rw [List.pairwise_cons] at h
    by_cases hle : y.2 ≤ x.2
    · rw [insertByPriority, if_pos hle]
      by_cases hyq : y.2 = x.2 <;>
        simp [List.filter_cons, hyq, ih h.2]
    · rw [insertByPriority, if_neg hle]
      have hgt : x.2 < y.2 := lt_of_not_le hle
      have hnil : (y :: ys).filter (fun z => z.2 == x.2) = [] := by
        rw [List.filter_eq_nil_iff]
        intro z hz
        rcases List.mem_cons.1 hz with rfl | hz
        · simp [Nat.ne_of_gt hgt]
        · simp [Nat.ne_of_gt (lt_of_lt_of_le hgt (h.1 z hz))]
      simp [List.filter_cons, hnil]

theorem filter_foldl_insertByPriority (l acc : List ((α → α) × Nat))
    (hacc : acc.Pairwise (fun a b => a.2 ≤ b.2)) (p : Nat) :
    ((l.foldl (fun a x => insertByPriority x a) acc).filter
        (fun y => y.2 == p)) =
      acc.filter (fun y => y.2 == p) ++ l.filter (fun y => y.2 == p) := by
  induction l generalizing acc with
  | nil => simp
  | cons x xs ih =>
    rw [List.foldl_cons, ih _ (pairwise_insertByPriority x acc hacc)]
    by_cases hx : x.2 = p
    · subst hx
      rw [filter_insertByPriority_eq x acc hacc]
      simp [List.filter_cons]
    · rw [filter_insertByPriority_ne x acc p hx]
      simp [List.filter_cons, hx]

/-- **C2.** `runProcessors` applies the registered processors as a
strictly sequential fold in ascending priority order with ties broken by
registration order (the applied sequence is sorted by priority, is
stable — processors of equal priority keep their registration order —
and is a permutation of the registrations), then applies the final
processor exactly once; in particular, registering `f1@0` and `f2@5` (in
either registration order) plus the final processor `sortF` yields
`runProcessors(P, v0) = sortF (f2 (f1 v0))`. -/
theorem runProcessors_priority_order_and_cartFields_scenario
    (α : Type) (l : List ((α → α) × Nat)) (P : String)
    (f1 f2 sortF : α → α) (v0 : α) :
    (sortByPriority l).Pairwise (fun a b => a.2 ≤ b.2) ∧
    (∀ p : Nat, (sortByPriority l).filter (fun y => y.2 == p) =
      l.filter (fun y => y.2 == p)) ∧
    List.Perm (sortByPriority l) l ∧
    runProcessors
      (addFinalProcessor P sortF
        (addProcessor P f2 5 (addProcessor P f1 0 (emptyRegistry α)).2).2).2
      P v0 = sortF (f2 (f1 v0)) ∧
    runProcessors
      (addFinalProcessor P sortF
        (addProcessor P f1 0 (addProcessor P f2 5 (emptyRegistry α)).2).2).2
      P v0 = sortF (f2 (f1 v0)) := by
  refine ⟨pairwise_foldl_insertByPriority l [] (by simp),
    fun p => filter_foldl_insertByPriority l [] (by simp) p,
    (foldl_insertByPriority_perm l []).trans (by simp), ?_, ?_⟩ <;>
    simp [runProcessors, registeredProcessors, finalProcessorFor,
      addProcessor, addFinalProcessor, emptyRegistry, sortByPriority,
      insertByPriority]

/-- **C3.** After the lock has fired, `addProcessor`, `addFinalProcessor`
and `addHook` all fail with the locked-state error for every extension
point / hook name — including names never used before the lock (the name
is arbitrary) — and the registry / hook table is returned unchanged, not
silently ignored. -/
theorem mutation_after_lock_fails
    (α F : Type) (r : Registry α) (h : Hookable F)
    (name : String) (fn : α → α) (pri : Nat)
    (hname : String) (kind : HookKind) (hfn : F) (hpri : Nat)
    (hrl : r.locked = true) (hhl : h.locked = true) :
    addProcessor name fn pri r = (.error .lockedRegistry, r) ∧
    addFinalProcessor name fn r = (.error .lockedRegistry, r) ∧
    addHook hname kind hfn hpri h = (.error .lockedHooks, h) := by
  refine ⟨?_, ?_, ?_⟩ <;>
    simp [addProcessor, addFinalProcessor, addHook, hrl, hhl]

/-- Witness for C3: a freshly locked registry / hook table and
never-before-used names. -/
theorem mutation_after_lock_fails_witness :
    addProcessor "never-used-point" id 3 (lockRegistry (emptyRegistry Nat)) =
      (.error .lockedRegistry, lockRegistry (emptyRegistry Nat)) ∧
    addFinalProcessor "never-used-point" id (lockRegistry (emptyRegistry Nat)) =
      (.error .lockedRegistry, lockRegistry (emptyRegistry Nat)) ∧
    addHook "never-used-hook" .before 7 1 (lockHookable (emptyHookable Nat)) =
      (.error .lockedHooks, lockHookable (emptyHookable Nat)) :=
  mutation_after_lock_fails Nat Nat (lockRegistry (emptyRegistry Nat))
    (lockHookable (emptyHookable Nat)) "never-used-point" id 3
    "never-used-hook" .before 7 1 rfl rfl

theorem string_append_ne_empty (a b : String) (h : a ≠ "") :
    a ++ b ≠ "" := by
  intro hc
  have hl := congrArg String.length hc
  simp [String.length_append, Nat.add_eq_zero] at hl
  apply h
  have hlen := hl.1
  cases a with
  | mk data =>
    simp [String.length] at hlen
    simp [hlen]

/-- **C8.** Whenever the base URL is a non-empty string (the default
`http://localhost:${port}` always is), the `Product.image` resolver
returns a non-null image object for every product input — even when
`product.originImage` is `undefined`, since `mainImage` is then the
non-empty string `baseUrl ++ "undefined"` — so the `null` branch is
unreachable. -/
theorem product_image_never_null (baseUrl uuid name : String)
    (originImage : Option String) (port : String)
    (hbase : baseUrl ≠ "") :
    (∃ img : ImageObject,
      productImageResolver baseUrl uuid name originImage = some img ∧
        img.origin = baseUrl ++ jsInterp originImage) ∧
    defaultHomeUrl port ≠ "" := by
  constructor
  · have hmain : baseUrl ++ jsInterp originImage ≠ "" :=
      string_append_ne_empty baseUrl (jsInterp originImage) hbase
    refine ⟨⟨name,
      if jsTruthy originImage && (jsInterp originImage).startsWith "http"
        then jsInterp originImage else baseUrl ++ jsInterp originImage,
      uuid, baseUrl ++ jsInterp originImage⟩, ?_, rfl⟩
    simp [productImageResolver, hmain]
  · exact string_append_ne_empty "http://localhost:" port (by decide)

/-- Witness for C8: default-style base URL and an `undefined`
`originImage`. -/
theorem product_image_never_null_witness :
    ("http://localhost:3000" ≠ "") ∧
    ((∃ img : ImageObject,
      productImageResolver "http://localhost:3000" "uuid-1" "Tee" none =
        some img ∧ img.origin = "http://localhost:3000" ++ jsInterp none) ∧
      defaultHomeUrl "3000" ≠ "") :=
  ⟨by decide,
   product_image_never_null "http://localhost:3000" "uuid-1" "Tee" none
     "3000" (by decide)⟩

theorem optOr_assoc (a b c : Option String) :
    optOr (optOr a b) c = optOr a (optOr b c) := by
  cases a <;> rfl

theorem optOr_none_right (a : Option String) : optOr a none = a := by
  cases a <;> rfl

theorem objLookup_objInsert (m : List (String × α)) (k k' : String)
    (v : α) :
    objLookup (objInsert m k v) k' =
      if k' = k then some v else objLookup m k' := by
  induction m with
  | nil =>
    by_cases h : k' = k
    · simp [objInsert, objLookup, h]
    · have hb : ¬ k = k' := fun hc => h hc.symm
      simp [objInsert, objLookup, h, hb]
  | cons p rest ih =>
    by_cases hpk : p.1 = k
    · by_cases h : k' = k
      · simp [objInsert, objLookup, hpk, h]
      · have hb : ¬ k = k' := fun hc => h hc.symm
        have hpb : ¬ p.1 = k' := fun hc => h (hc.symm.trans hpk)
        simp [objInsert, objLookup, hpk, h, hb, hpb]
    · by_cases h : k' = p.1
      · have hne : ¬ k' = k := fun hc => hpk (h.symm.trans hc)
        simp [objInsert, objLookup, hpk, h.symm, hne]
      · have hpb : ¬ p.1 = k' := fun hc => h hc.symm
        simp [objInsert, objLookup, hpk, hpb, ih]

theorem objLookup_foldl_objInsert (d : List (String × String))
    (acc : List (String × String)) (k : String) :
    objLookup (d.foldl (fun a p => objInsert a p.1 p.2) acc) k =
      optOr (lastBinding d k) (objLookup acc k) := by
  induction d generalizing acc with
  | nil => simp [lastBinding, optOr]
  | cons p d ih =>
    rw [List.foldl_cons, ih]
    cases hlb : lastBinding d k with
    | some v => simp [lastBinding, hlb, optOr]
    | none =>
      simp only [lastBinding, hlb, optOr, objLookup_objInsert]
      by_cases h : k = p.1
      · simp [h]
      · have hp : ¬ p.1 = k := fun hc => h hc.symm
        simp [h, hp]

theorem objLookup_foldFiles
    (read : String → Except String (List (String × String)))
    (fs : List String) (acc : List (String × String))
    (hok : ∀ f ∈ fs, exceptIsError (read f) = false) (k : String) :
    objLookup (fs.foldl (fun a f =>
        match read f with
        | .ok d => d.foldl (fun a2 p => objInsert a2 p.1 p.2) a
        | .error _ => a) acc) k =
      optOr
        (lastValueAcross (fs.filterMap (fun f => (read f).toOption)) k)
        (objLookup acc k) := by
  induction fs generalizing acc with
  | nil => simp [lastValueAcross, optOr]
  | cons f fs ih =>
    have hf : exceptIsError (read f) = false := hok f (by simp)
    cases hread : read f with
    | error e => rw [hread] at hf; simp [exceptIsError] at hf
    | ok d =>
      rw [List.foldl_cons]
      simp only [hread]
      rw [ih _ (fun x hx => hok x (by simp [hx])),
        objLookup_foldl_objInsert]
      simp only [List.filterMap_cons, hread, Except.toOption]
      show _ = optOr (optOr _ (lastBinding d k)) (objLookup acc k)
      rw [optOr_assoc]

/-- **C9.** `loadCsvTranslationFiles` is a total function (it never
throws): when the language's translation folder does not exist it
returns the empty object without logging; when any `.csv` read/parse
fails it logs the error and returns the empty object; otherwise it
returns (without logging) the union of the key-value pairs of all
`.csv` files, a key present in several files taking its value from the
last file in directory-listing order. -/
theorem loadCsvTranslationFiles_spec
    (files : List String)
    (readCsvFile : String → Except String (List (String × String))) :
    loadCsvTranslationFiles false files readCsvFile =
      { result := [], logged := false } ∧
    ((files.filter (fun f => extname f == ".csv")).any
        (fun f => exceptIsError (readCsvFile f)) = true →
      loadCsvTranslationFiles true files readCsvFile =
        { result := [], logged := true }) ∧
    ((∀ f ∈ files.filter (fun f => extname f == ".csv"),
        exceptIsError (readCsvFile f) = false) →
      (loadCsvTranslationFiles true files readCsvFile).logged = false ∧
      ∀ k,
        objLookup
          (loadCsvTranslationFiles true files readCsvFile).result k =
        lastValueAcross
          ((files.filter (fun f => extname f == ".csv")).filterMap
            (fun f => (readCsvFile f).toOption)) k) := by
  refine ⟨rfl, ?_, ?_⟩
  · intro hany
    simp [loadCsvTranslationFiles, hany]
  · intro hok
    have hnoany : (files.filter (fun f => extname f == ".csv")).any
        (fun f => exceptIsError (readCsvFile f)) = false := by
      rw [List.any_eq_false]
      intro f hf
      simp [hok f hf]
    refine ⟨by simp [loadCsvTranslationFiles, hnoany], fun k => ?_⟩
    simp only [loadCsvTranslationFiles, Bool.not_true, if_false, hnoany,
      Bool.false_eq_true]
    rw [objLookup_foldFiles readCsvFile _ [] hok k]
    simp [objLookup, optOr_none_right]

/-- Witness for C9: a concrete listing where the later file's value for
`"hello"` wins and the `.txt` file is ignored. -/
theorem loadCsvTranslationFiles_spec_witness :
    loadCsvTranslationFiles false demoTranslationFiles demoReadCsv =
      { result := [], logged := false } ∧
    objLookup
      (loadCsvTranslationFiles true demoTranslationFiles demoReadCsv).result
      "hello" =
    lastValueAcross
      ((demoTranslationFiles.filter (fun f => extname f == ".csv")).filterMap
        (fun f => (demoReadCsv f).toOption)) "hello" :=
  ⟨(loadCsvTranslationFiles_spec demoTranslationFiles demoReadCsv).1,
   ((loadCsvTranslationFiles_spec demoTranslationFiles demoReadCsv).2.2
     (by decide)).2 "hello"⟩

/-- **C10.** The cart reducer preserves the invariant
`loading = anyActive loadingStates`: the initial state satisfies it,
every action preserves it, `SET_CART` and `SET_ERROR` reset every
loading-state entry to idle and set `loading` to `false`,
`SET_SPECIFIC_LOADING` recomputes `loading` from the updated entries,
and `CLEAR_ERROR` / `SET_SYNC_STATUS` touch neither `loading` nor
`loadingStates`. -/
theorem cartReducer_loading_invariant
    (cart : Option CartData) (api : String) (s : CartState)
    (a : CartAction)
    (hs : s.loading = anyActive s.loadingStates) :
    ((hydratedInitialState cart api).loading =
      anyActive (hydratedInitialState cart api).loadingStates) ∧
    ((cartReducer s a).loading = anyActive (cartReducer s a).loadingStates) ∧
    (∀ p, (cartReducer s (.setCart p)).loadingStates = idleLoadingStates ∧
      (cartReducer s (.setCart p)).loading = false) ∧
    (∀ p, (cartReducer s (.setError p)).loadingStates = idleLoadingStates ∧
      (cartReducer s (.setError p)).loading = false) ∧
    ((cartReducer s .clearError).loading = s.loading ∧
      (cartReducer s .clearError).loadingStates = s.loadingStates) ∧
    (∀ p, (cartReducer s (.setSyncStatus p)).loading = s.loading ∧
      (cartReducer s (.setSyncStatus p)).loadingStates = s.loadingStates) ∧
    (∀ op loading itemId,
      (cartReducer s (.setSpecificLoading op loading itemId)).loading =
        anyActive
          (cartReducer s (.setSpecificLoading op loading itemId)).loadingStates) := by
  have hclear : (cartReducer s .clearError).loading = s.loading ∧
      (cartReducer s .clearError).loadingStates = s.loadingStates := by
    cases hd : s.data <;> simp [cartReducer, hd]
  refine ⟨rfl, ?_, fun p => ⟨rfl, rfl⟩, fun p => ⟨rfl, rfl⟩, hclear,
    fun p => ⟨rfl, rfl⟩, fun op loading itemId => rfl⟩
  cases a with
  | setCart p => rfl
  | setSpecificLoading op loading itemId => rfl
  | setError p => rfl
  | clearError => rw [hclear.1, hclear.2]; exact hs
  | setSyncStatus p => exact hs

/-- Witness for C10: the fresh initial state satisfies the invariant, and
it is preserved when an add-to-cart starts loading. -/
theorem cartReducer_loading_invariant_witness :
    ((hydratedInitialState none "/api/cart/items").loading =
      anyActive (hydratedInitialState none "/api/cart/items").loadingStates) ∧
    ((cartReducer (hydratedInitialState none "/api/cart/items")
        (.setSpecificLoading .addingItem true none)).loading =
      anyActive (cartReducer (hydratedInitialState none "/api/cart/items")
        (.setSpecificLoading .addingItem true none)).loadingStates) :=
  ⟨(cartReducer_loading_invariant none "/api/cart/items"
      (hydratedInitialState none "/api/cart/items")
      (.setSpecificLoading .addingItem true none) rfl).1,
   (cartReducer_loading_invariant none "/api/cart/items"
      (hydratedInitialState none "/api/cart/items")
      (.setSpecificLoading .addingItem true none) rfl).2.1⟩

end EShop
